/-
Verification of the vdo-translater segment-processing pipeline.

Shallow embedding of the repository's core components:
  * `scripts/whisper_transcribe.py` — CheckpointManager, SegmentBatcher,
    ProgressTracker, WhisperTranscriber.transcribe_file resume loop;
  * `kaggle/checkpoint_manager.py` — the Kaggle CheckpointManager.save_checkpoint;
  * `src/translation_pipeline.py` — TranslationCache (MD5 cache keys),
    TranslationPipeline complexity scoring, model routing, cost accounting,
    parallel segment collection and SRT generation;
  * `src/config.py` — the constants used by the above.

Machine floats from the source are modelled as exact rationals (ℚ); all
arithmetic appearing in the claims stays on decision thresholds that the
source reaches exactly, so the modelling is faithful for every input used
below.  Cache keys use a full executable MD5 over the UTF-8 bytes of the
key string, exactly as `hashlib.md5(combined.encode()).hexdigest()` does.
-/
import Mathlib

set_option maxRecDepth 100000

attribute [local semireducible] Rat.add Rat.mul Rat.inv Rat.sub Rat.ofScientific

namespace VdoTranslater

/-! ## MD5 (as used by `TranslationCache._generate_cache_key`)

Executable MD5 over a list of byte values, RFC 1321.  `md5Hex` is the
lowercase hex digest, `strBytes` is UTF-8 encoding of a string. -/

namespace MD5

/-- Left-rotate a 32-bit word held in a `Nat`. -/
def rotl32 (x n : Nat) : Nat :=
  ((x <<< n) ||| (x >>> (32 - n))) % 4294967296

/-- The 64 MD5 sine-table constants `K[i] = floor(abs(sin(i+1)) * 2^32)`. -/
def K : List Nat :=
  [0xd76aa478, 0xe8c7b756, 0x242070db, 0xc1bdceee,
   0xf57c0faf, 0x4787c62a, 0xa8304613, 0xfd469501,
   0x698098d8, 0x8b44f7af, 0xffff5bb1, 0x895cd7be,
   0x6b901122, 0xfd987193, 0xa679438e, 0x49b40821,
   0xf61e2562, 0xc040b340, 0x265e5a51, 0xe9b6c7aa,
   0xd62f105d, 0x02441453, 0xd8a1e681, 0xe7d3fbc8,
   0x21e1cde6, 0xc33707d6, 0xf4d50d87, 0x455a14ed,
   0xa9e3e905, 0xfcefa3f8, 0x676f02d9, 0x8d2a4c8a,
   0xfffa3942, 0x8771f681, 0x6d9d6122, 0xfde5380c,
   0xa4beea44, 0x4bdecfa9, 0xf6bb4b60, 0xbebfbc70,
   0x289b7ec6, 0xeaa127fa, 0xd4ef3085, 0x04881d05,
   0xd9d4d039, 0xe6db99e5, 0x1fa27cf8, 0xc4ac5665,
   0xf4292244, 0x432aff97, 0xab9423a7, 0xfc93a039,
   0x655b59c3, 0x8f0ccc92, 0xffeff47d, 0x85845dd1,
   0x6fa87e4f, 0xfe2ce6e0, 0xa3014314, 0x4e0811a1,
   0xf7537e82, 0xbd3af235, 0x2ad7d2bb, 0xeb86d391]

/-- Per-round left-rotation amounts. -/
def S : List Nat :=
  [7, 12, 17, 22, 7, 12, 17, 22, 7, 12, 17, 22, 7, 12, 17, 22,
   5, 9, 14, 20, 5, 9, 14, 20, 5, 9, 14, 20, 5, 9, 14, 20,
   4, 11, 16, 23, 4, 11, 16, 23, 4, 11, 16, 23, 4, 11, 16, 23,
   6, 10, 15, 21, 6, 10, 15, 21, 6, 10, 15, 21, 6, 10, 15, 21]

/-- Little-endian byte expansion of a `Nat` into `k` bytes. -/
def leBytes (k n : Nat) : List Nat :=
  (List.range k).map (fun i => (n >>> (8 * i)) % 256)

/-- MD5 padding: append `0x80`, zero bytes to 56 mod 64, then the
64-bit little-endian bit length. -/
def padMessage (msg : List Nat) : List Nat :=
  let len := msg.length
  let z := (119 - len % 64) % 64
  msg ++ [0x80] ++ List.replicate z 0 ++ leBytes 8 ((8 * len) % 18446744073709551616)

/-- Decode a 64-byte chunk into 16 little-endian 32-bit words. -/
def chunkWords (chunk : List Nat) : List Nat :=
  (List.range 16).map (fun j =>
    chunk.getD (4 * j) 0 + chunk.getD (4 * j + 1) 0 * 256 +
    chunk.getD (4 * j + 2) 0 * 65536 + chunk.getD (4 * j + 3) 0 * 16777216)

/-- One of the 64 MD5 operations on the running state `(A, B, C, D)`. -/
def md5Round (M : List Nat) (st : Nat × Nat × Nat × Nat) (i : Nat) :
    Nat × Nat × Nat × Nat :=
  let A := st.1
  let B := st.2.1
  let C := st.2.2.1
  let D := st.2.2.2
  let mask := 4294967295
  let F :=
    if i < 16 then (B &&& C) ||| ((mask ^^^ B) &&& D)
    else if i < 32 then (D &&& B) ||| ((mask ^^^ D) &&& C)
    else if i < 48 then B ^^^ C ^^^ D
    else C ^^^ (B ||| (mask ^^^ D))
  let g :=
    if i < 16 then i
    else if i < 32 then (5 * i + 1) % 16
    else if i < 48 then (3 * i + 5) % 16
    else (7 * i) % 16
  let F2 := (F + A + K.getD i 0 + M.getD g 0) % 4294967296
  (D, (B + rotl32 F2 (S.getD i 0)) % 4294967296, B, C)

/-- Process one 64-byte chunk, updating the four state words. -/
def processChunk (st : Nat × Nat × Nat × Nat) (chunk : List Nat) :
    Nat × Nat × Nat × Nat :=
  let M := chunkWords chunk
  let r := (List.range 64).foldl (md5Round M) st
  ((st.1 + r.1) % 4294967296, (st.2.1 + r.2.1) % 4294967296,
   (st.2.2.1 + r.2.2.1) % 4294967296, (st.2.2.2 + r.2.2.2) % 4294967296)

/-- Split into 64-byte chunks (fuel-driven; fuel is the chunk count). -/
def chunksAux : Nat → List Nat → List (List Nat)
  | 0, _ => []
  | n + 1, l => l.take 64 :: chunksAux n (l.drop 64)

/-- All 64-byte chunks of a padded message. -/
def chunks64 (l : List Nat) : List (List Nat) :=
  chunksAux (l.length / 64) l

/-- The 16 digest bytes of a byte-list message. -/
def md5Bytes (msg : List Nat) : List Nat :=
  let r := (chunks64 (padMessage msg)).foldl processChunk
    (0x67452301, 0xefcdab89, 0x98badcfe, 0x10325476)
  leBytes 4 r.1 ++ leBytes 4 r.2.1 ++ leBytes 4 r.2.2.1 ++ leBytes 4 r.2.2.2

/-- Lowercase hex character for a value below 16. -/
def hexChar (n : Nat) : Char :=
  "0123456789abcdef".toList.getD n '0'

/-- Two-character lowercase hex of a byte. -/
def byteHex (b : Nat) : String :=
  String.mk [hexChar (b / 16), hexChar (b % 16)]

/-- Lowercase hex digest of a byte-list message, as `hexdigest()` returns. -/
def md5Hex (msg : List Nat) : String :=
  String.join ((md5Bytes msg).map byteHex)

/-- UTF-8 encoding of a single code point. -/
def utf8Char (c : Nat) : List Nat :=
  if c < 128 then [c]
  else if c < 2048 then [192 + c / 64, 128 + c % 64]
  else if c < 65536 then [224 + c / 4096, 128 + c / 64 % 64, 128 + c % 64]
  else [240 + c / 262144, 128 + c / 4096 % 64, 128 + c / 64 % 64, 128 + c % 64]

/-- UTF-8 bytes of a string, as Python's `str.encode()` produces. -/
def strBytes (s : String) : List Nat :=
  (s.toList.map (fun c => utf8Char c.toNat)).flatten

end MD5

/-- RFC 1321 test vector: the digest of the empty message. -/
theorem md5_empty_vector : MD5.md5Hex (MD5.strBytes "") = "d41d8cd98f00b204e9800998ecf8427e" := by
  decide

/-- RFC 1321 test vector: the digest of "abc". -/
theorem md5_abc_vector : MD5.md5Hex (MD5.strBytes "abc") = "900150983cd24fb0d6963f7d28e17f72" := by
  decide

/-! ## String helpers with Python semantics -/

/-- Does `s` start with `p`? (helper for substring containment). -/
def charsStartWith : List Char → List Char → Bool
  | [], _ => true
  | _ :: _, [] => false
  | p :: ps, c :: cs => p == c && charsStartWith ps cs

/-- Does `pat` occur as a contiguous sublist of `s`?  Python's `pat in s`. -/
def charsContain (pat : List Char) : List Char → Bool
  | [] => pat.isEmpty
  | c :: cs => charsStartWith pat (c :: cs) || charsContain pat cs

/-- Python's `pat in text` substring test. -/
def containsSubstr (text pat : String) : Bool :=
  charsContain pat.toList text.toList

/-- Helper for `pyWords`: split on whitespace runs, accumulator holds the
current word reversed. -/
def pyWordsAux : List Char → List Char → List String
  | [], acc => if acc.isEmpty then [] else [String.mk acc.reverse]
  | c :: cs, acc =>
    if c.isWhitespace then
      if acc.isEmpty then pyWordsAux cs []
      else String.mk acc.reverse :: pyWordsAux cs []
    else pyWordsAux cs (c :: acc)

/-- Python's `str.split()`: split on whitespace runs, no empty words. -/
def pyWords (s : String) : List String :=
  pyWordsAux s.toList []

/-- Drop leading whitespace characters. -/
def dropWhileWs : List Char → List Char
  | [] => []
  | c :: cs => if c.isWhitespace then dropWhileWs cs else c :: cs

/-- Python's `str.strip()`: remove leading and trailing whitespace. -/
def pyStrip (s : String) : String :=
  String.mk ((dropWhileWs (dropWhileWs s.toList).reverse).reverse)

/-- Python's `s[:n]` slice (first `n` code points). -/
def pyTake (s : String) (n : Nat) : String :=
  String.mk (s.toList.take n)

/-! ## `src/config.py` constants used by the claims -/

/-- `APIConfig.max_retries` (config.py line 111). -/
def APIConfig.max_retries : Nat := 3

/-- `ProcessingConfig.batch_size` (config.py line 215), used by
`_translate_segments_with_context` as its batch size. -/
def ProcessingConfig.batch_size : Nat := 10

/-- `TranslationModel` enum from config.py. -/
inductive TranslationModel where
  | GPT_35_TURBO
  | GPT_4
  | GPT_4_TURBO
  | LOCAL
  | MOCK
deriving DecidableEq

/-- The `.value` string of each `TranslationModel` member. -/
def TranslationModel.value : TranslationModel → String
  | .GPT_35_TURBO => "gpt-3.5-turbo"
  | .GPT_4 => "gpt-4"
  | .GPT_4_TURBO => "gpt-4-turbo-preview"
  | .LOCAL => "local"
  | .MOCK => "mock"

/-! ## Data structures from `src/translation_pipeline.py` and
`src/context_analyzer.py` -/

/-- `SegmentContext` (context_analyzer.py): only the fields read by the
translation pipeline are modelled (`is_question`, `is_metaphor`,
`key_terms`, plus the identifying `index`/`text`); the remaining fields
(trading_context, sentiment, idiom hints, ...) are never consulted by the
functions under verification. -/
structure SegmentContext where
  index : Nat
  text : String
  is_question : Bool := false
  is_metaphor : Bool := false
  key_terms : List String := []
deriving DecidableEq

/-- `TranscriptionSegment` dataclass (translation_pipeline.py). -/
structure TranscriptionSegment where
  id : Nat
  start_time : ℚ
  end_time : ℚ
  text : String
  confidence : ℚ := 0
  speaker : Option String := none
deriving DecidableEq

/-- `TranslationResult` dataclass (translation_pipeline.py). -/
structure TranslationResult where
  segment_id : Nat
  original_text : String
  translated_text : String
  model_used : String
  confidence : ℚ
  complexity_score : ℚ
  cached : Bool := false
  cost_estimate : ℚ := 0
  processing_time : ℚ := 0
deriving DecidableEq

/-- `PipelineStats` dataclass (translation_pipeline.py). -/
structure PipelineStats where
  total_segments : Nat := 0
  cached_segments : Nat := 0
  gpt35_segments : Nat := 0
  gpt4_segments : Nat := 0
  local_segments : Nat := 0
  total_cost : ℚ := 0
  total_time : ℚ := 0
  cache_hit_rate : ℚ := 0
  average_confidence : ℚ := 0
deriving DecidableEq

/-! ## `TranslationCache` -/

/-- `cache_stats` counters of `TranslationCache` (a defaultdict of ints). -/
structure CacheStats where
  hits : Nat := 0
  misses : Nat := 0
  sets : Nat := 0
deriving DecidableEq

/-- The in-memory dict `memory_cache` as an association list with unique
keys; lookup of a key. -/
def lookupCache : List (String × String) → String → Option String
  | [], _ => none
  | (k, v) :: rest, key => if k = key then some v else lookupCache rest key

/-- Dict assignment `memory_cache[key] = v` (overwrite or append). -/
def insertCache : List (String × String) → String → String → List (String × String)
  | [], key, v => [(key, v)]
  | (k, w) :: rest, key, v =>
    if k = key then (k, v) :: rest else (k, w) :: insertCache rest key v

/-- In-memory part of `TranslationCache` (disk persistence is I/O and does
not affect the within-run claims below). -/
structure TranslationCache where
  memory_cache : List (String × String) := []
  cache_stats : CacheStats := {}
deriving DecidableEq

/-- `TranslationCache._generate_cache_key`:
`hashlib.md5(f"{text}|{context}|{model}".encode()).hexdigest()`. -/
def generateCacheKey (text context model : String) : String :=
  MD5.md5Hex (MD5.strBytes (text ++ "|" ++ context ++ "|" ++ model))

/-- `TranslationCache.get`: look the key up, count a hit or a miss. -/
def cacheGet (c : TranslationCache) (text context model : String) :
    Option String × TranslationCache :=
  let key := generateCacheKey text context model
  match lookupCache c.memory_cache key with
  | some v =>
    (some v,
     { c with cache_stats := { c.cache_stats with hits := c.cache_stats.hits + 1 } })
  | none =>
    (none,
     { c with cache_stats := { c.cache_stats with misses := c.cache_stats.misses + 1 } })

/-- `TranslationCache.set`: store under the generated key, count a set
(the periodic disk save it triggers is I/O and is not modelled). -/
def cacheSet (c : TranslationCache) (text translation context model : String) :
    TranslationCache :=
  let key := generateCacheKey text context model
  { memory_cache := insertCache c.memory_cache key translation,
    cache_stats := { c.cache_stats with sets := c.cache_stats.sets + 1 } }

/-! ## Complexity scoring and model routing -/

/-- The `complex_patterns` list of `_calculate_complexity` (analogy,
metaphor, hypothetical and example markers). -/
def complexPatterns : List String :=
  ["เหมือนกับ", "อุปมา", "สมมติว่า", "ยกตัวอย่าง"]

/-- `TranslationPipeline._calculate_complexity`, floats as exact rationals. -/
def calcComplexity (text : String) (ctx : Option SegmentContext) : ℚ :=
  let score : ℚ := 0
  let score := if 200 < text.length then score + 2/10 else score
  let score :=
    match ctx with
    | some c =>
      let score := if c.is_metaphor then score + 3/10 else score
      let score := if 3 < c.key_terms.length then score + 2/10 else score
      if c.is_question then score - 1/10 else score
    | none => score
  let score :=
    if complexPatterns.any (fun p => containsSubstr text p) then score + 2/10
    else score
  min 1 (max 0 score)

/-- `segment_context and segment_context.is_metaphor` as a Bool. -/
def ctxIsMetaphor : Option SegmentContext → Bool
  | some c => c.is_metaphor
  | none => false

/-- `TranslationPipeline._select_model`. -/
def selectModel (complexity : ℚ) (ctx : Option SegmentContext) : TranslationModel :=
  if ctxIsMetaphor ctx = true ∧ (1/2 : ℚ) < complexity then TranslationModel.GPT_4
  else if complexity < 3/10 then TranslationModel.GPT_35_TURBO
  else if complexity < 7/10 then TranslationModel.GPT_35_TURBO
  else TranslationModel.GPT_4

/-! ## Cost estimation and the external-call boundary -/

/-- The per-1K-token cost table of `_estimate_cost`; `costs.get(model,
costs[GPT_35_TURBO])` makes GPT-3.5 rates the default. -/
def modelCosts : TranslationModel → ℚ × ℚ
  | .GPT_35_TURBO => (5/10000, 15/10000)
  | .GPT_4 => (1/100, 3/100)
  | .LOCAL => (0, 0)
  | _ => (5/10000, 15/10000)

/-- `TranslationPipeline._estimate_cost`. -/
def estimateCost (inputText outputText : String) (model : TranslationModel) : ℚ :=
  let inputTokens : ℚ := (inputText.length : ℚ) / 4
  let outputTokens : ℚ := (outputText.length : ℚ) / 4
  let c := modelCosts model
  inputTokens / 1000 * c.1 + outputTokens / 1000 * c.2

/-- `TranslationPipeline._mock_translation`. -/
def mockTranslation (text : String) : String :=
  "[Mock translation of " ++ toString (pyWords text).length ++ " words: " ++
    pyTake text 30 ++ "...]"

/-- `TranslationPipeline._fallback_translation`; `dict` abstracts
`data_manager.find_term` restricted to entries with a nonempty `english`
field. -/
def fallbackTranslation (dict : String → Option String) (text : String) : String :=
  String.intercalate " "
    ((pyWords text).map (fun w =>
      match dict w with
      | some e => e
      | none => "[" ++ w ++ "]"))

/-- Outcome of the single OpenAI chat-completion call inside
`_perform_translation`'s `try` block. -/
inductive ApiOutcome where
  | ok (response : String)
  | err
deriving DecidableEq

/-- `TranslationPipeline._perform_translation`.  The prompt construction
does not influence which branch runs and is omitted; `api` is the outcome
of the external call, `dict` backs the fallback path.  The second
component counts how many external API calls were made (the source issues
the call once inside one `try`, with no retry loop). -/
def performTranslation (hasClient : Bool) (api : ApiOutcome)
    (dict : String → Option String) (text : String) : String × Nat :=
  if !hasClient then (mockTranslation text, 0)
  else
    match api with
    | .ok response => (pyStrip response, 1)
    | .err => (fallbackTranslation dict text, 1)

/-! ## `_translate_single_segment` -/

/-- Mutable pipeline state touched by `_translate_single_segment`:
the shared cache and the running `PipelineStats`. -/
structure PipelineState where
  cache : TranslationCache := {}
  stats : PipelineStats := {}
deriving DecidableEq

/-- `TranslationPipeline._translate_single_segment`.  `reprCtx` abstracts
Python's `str(segment_context)` serialization; `hasClient`, `api` and
`dict` parameterize `_perform_translation` as above.  Wall-clock
`processing_time` is modelled as `0` (source measures elapsed time);
the cached branch's hardcoded `0.001` is kept. -/
def translateSingleSegment (hasClient : Bool) (api : ApiOutcome)
    (dict : String → Option String) (reprCtx : SegmentContext → String)
    (seg : TranscriptionSegment) (segCtx : Option SegmentContext)
    (st : PipelineState) : TranslationResult × PipelineState :=
  let contextStr :=
    match segCtx with
    | some c => reprCtx c
    | none => ""
  match cacheGet st.cache seg.text contextStr "" with
  | (some cached, cache1) =>
    (⟨seg.id, seg.text, cached, "cache", 1, 0, true, 0, 1/1000⟩,
     { cache := cache1,
       stats := { st.stats with cached_segments := st.stats.cached_segments + 1 } })
  | (none, cache1) =>
    let complexity := calcComplexity seg.text segCtx
    let model := selectModel complexity segCtx
    let translated := (performTranslation hasClient api dict seg.text).1
    let cache2 := cacheSet cache1 seg.text translated contextStr model.value
    let cost := estimateCost seg.text translated model
    let stats1 := { st.stats with total_cost := st.stats.total_cost + cost }
    let stats2 :=
      if model = TranslationModel.GPT_35_TURBO then
        { stats1 with gpt35_segments := stats1.gpt35_segments + 1 }
      else if model = TranslationModel.GPT_4 then
        { stats1 with gpt4_segments := stats1.gpt4_segments + 1 }
      else
        { stats1 with local_segments := stats1.local_segments + 1 }
    (⟨seg.id, seg.text, translated, model.value,
      (if model = TranslationModel.GPT_4 then 95/100 else 90/100),
      complexity, false, cost, 0⟩,
     { cache := cache2, stats := stats2 })

/-! ## `_translate_segments_with_context`: batching, completion order,
final sort -/

/-- Chunking helper; the fuel argument is an upper bound on the number of
chunks. -/
def batchChunksAux {α : Type} (bs : Nat) : Nat → List α → List (List α)
  | _, [] => []
  | 0, l => [l]
  | fuel + 1, l => l.take bs :: batchChunksAux bs fuel (l.drop bs)

/-- `for i in range(0, len(segments), batch_size): batch = segments[i:i+batch_size]`. -/
def batchesOf {α : Type} (bs : Nat) (l : List α) : List (List α) :=
  batchChunksAux bs l.length l

/-- Collect one batch's futures in completion order: `order` lists the
indices of the batch's futures in the order `as_completed` yields them; a
`none` future models `future.result(timeout=30)` raising (the exception is
logged and the result dropped). -/
def collectBatch (futures : List (Option TranslationResult)) (order : List Nat) :
    List TranslationResult :=
  order.filterMap (fun j => futures.getD j none)

/-- `results.sort(key=lambda x: x.segment_id)` (a stable sort). -/
def sortById (l : List TranslationResult) : List TranslationResult :=
  l.insertionSort (fun a b => a.segment_id ≤ b.segment_id)

/-- `TranslationPipeline._translate_segments_with_context`.  `outcome`
abstracts the per-segment future (the `_translate_single_segment` call,
`none` for a future whose `.result()` raised), `orders` gives each batch's
completion order.  Results are collected batch by batch and sorted by
segment id at the end, exactly as the source does. -/
def translateSegmentsWithContext
    (outcome : TranscriptionSegment → Option TranslationResult)
    (orders : List (List Nat)) (segments : List TranscriptionSegment) :
    List TranslationResult :=
  let batches := batchesOf ProcessingConfig.batch_size segments
  let collected :=
    (List.zipWith (fun batch ord => collectBatch (batch.map outcome) ord)
      batches orders).flatten
  sortById collected

/-! ## `generate_srt` -/

/-- Python float `%` for a positive modulus (result in `[0, b)`). -/
def pyFloorMod (a b : ℚ) : ℚ :=
  a - b * ⌊a / b⌋

/-- Zero-pad to two digits (`{:02d}`). -/
def pad2 (n : Nat) : String :=
  if n < 10 then "0" ++ toString n else toString n

/-- Zero-pad to three digits (`{:03d}`). -/
def pad3 (n : Nat) : String :=
  if n < 10 then "00" ++ toString n
  else if n < 100 then "0" ++ toString n
  else toString n

/-- `TranscriptionSegment.to_srt_timestamp` for the nonnegative
timestamps the pipeline produces. -/
def toSrtTimestamp (t : ℚ) : String :=
  let hours := (⌊t / 3600⌋).toNat
  let minutes := (⌊pyFloorMod t 3600 / 60⌋).toNat
  let seconds := (⌊pyFloorMod t 60⌋).toNat
  let millis := (⌊pyFloorMod t 1 * 1000⌋).toNat
  pad2 hours ++ ":" ++ pad2 minutes ++ ":" ++ pad2 seconds ++ "," ++ pad3 millis

/-- `TranscriptionSegment.to_srt`. -/
def toSrt (seg : TranscriptionSegment) (translatedText : String) : String :=
  toString seg.id ++ "\n" ++ toSrtTimestamp seg.start_time ++ " --> " ++
    toSrtTimestamp seg.end_time ++ "\n" ++ translatedText ++ "\n"

/-- The dict comprehension `{t.segment_id: t for t in translations}`
(a later entry with the same id wins). -/
def translationMap (translations : List TranslationResult) (id : Nat) :
    Option TranslationResult :=
  (translations.filter (fun t => t.segment_id == id)).getLast?

/-- One entry of the SRT body: the translated text when the segment id has
a translation, otherwise the original text in square brackets. -/
def srtEntryFor (translations : List TranslationResult)
    (seg : TranscriptionSegment) : String :=
  match translationMap translations seg.id with
  | some t => toSrt seg t.translated_text
  | none => toSrt seg ("[" ++ seg.text ++ "]")

/-- The `srt_content` list built by `generate_srt`'s loop. -/
def srtEntries (segments : List TranscriptionSegment)
    (translations : List TranslationResult) : List String :=
  segments.map (srtEntryFor translations)

/-- `TranslationPipeline.generate_srt`: assembles the entries and writes
`"\n".join(srt_content)`; `writeOk = false` models the file write raising,
which the `except` turns into a `False` return.  Returns the success flag
and the written content. -/
def generateSrt (writeOk : Bool) (segments : List TranscriptionSegment)
    (translations : List TranslationResult) : Bool × Option String :=
  let content := srtEntries segments translations
  if writeOk then (true, some (String.intercalate "\n" content))
  else (false, none)

/-! ## `scripts/whisper_transcribe.py` — ProgressTracker -/

/-- `ProgressTracker.get_speed`: cumulative processed duration over
elapsed wall-clock seconds (`elapsed` parameterizes `time.time() -
self.start_time`). -/
def getSpeed (processedDuration elapsed : ℚ) : ℚ :=
  if 0 < elapsed then processedDuration / elapsed else 0

/-- `ProgressTracker.get_eta`. -/
def getEta (totalDuration processedDuration elapsed : ℚ) : ℚ :=
  let speed := getSpeed processedDuration elapsed
  let remainingDuration := totalDuration - processedDuration
  if 0 < speed then remainingDuration / speed else 0

/-! ## `scripts/whisper_transcribe.py` — segments, batcher, transcribe loop -/

/-- `TranscriptSegment` dataclass of whisper_transcribe.py.  The optional
`words` list is only ever read to average word probabilities into
`confidence`; it is not modelled separately. -/
structure TranscriptSegment where
  id : Nat
  start : ℚ
  stop : ℚ
  text : String
  confidence : ℚ := 0
deriving DecidableEq

/-- One element of the whisper `result['segments']` list (the fields the
transcribe loop reads; `words` absent, so the loop's confidence stays 1.0). -/
structure RawSeg where
  start : ℚ
  stop : ℚ
  text : String
deriving DecidableEq

/-- The segment built by one loop iteration of `transcribe_file` for index
`i`: timestamps shifted by the offset, text stripped, confidence 1.0 when
no word list is present. -/
def procSeg (off : ℚ) (i : Nat) (seg : RawSeg) : TranscriptSegment :=
  ⟨i, seg.start + off, seg.stop + off, pyStrip seg.text, 1⟩

/-- `SegmentBatcher` state: flushed batch files (ascending index) and the
in-memory buffer. -/
structure BatchState where
  flushed : List (List TranscriptSegment) := []
  buffer : List TranscriptSegment := []
deriving DecidableEq

/-- `SegmentBatcher.add_segment`: append, auto-flush when the buffer
reaches the batch size. -/
def addSegment (batchSize : Nat) (bs : BatchState) (s : TranscriptSegment) :
    BatchState :=
  let buf := bs.buffer ++ [s]
  if batchSize ≤ buf.length then ⟨bs.flushed ++ [buf], []⟩
  else ⟨bs.flushed, buf⟩

/-- `SegmentBatcher.flush` (no-op on an empty buffer). -/
def flushBatcher (bs : BatchState) : BatchState :=
  if bs.buffer.isEmpty then bs else ⟨bs.flushed ++ [bs.buffer], []⟩

/-- `SegmentBatcher.get_all_segments`: batch files in ascending order,
concatenated.  After a crash only the flushed batches are durable — the
in-memory buffer is lost. -/
def getAllSegments (bs : BatchState) : List TranscriptSegment :=
  bs.flushed.flatten

/-- The in-memory state threaded through `transcribe_file`'s segment loop:
the `segments` list, the batcher, and the last checkpoint's
`last_segment_id` (if any was saved). -/
structure TranscribeState where
  segments : List TranscriptSegment := []
  batcher : BatchState := {}
  checkpoint : Option Nat := none
deriving DecidableEq

/-- One iteration of the `for i, seg in enumerate(result['segments'])`
loop: skip when `i < resume_from_segment`; otherwise build the segment,
append it, add it to the batcher (batch size 100 as at the call site), and
save a checkpoint with `last_segment_id = i` when `(i+1) %
checkpoint_interval == 0`. -/
def transcribeStep (interval : Nat) (off : ℚ) (resumeFrom : Nat)
    (st : TranscribeState) (p : Nat × RawSeg) : TranscribeState :=
  let i := p.1
  if i < resumeFrom then st
  else
    let s := procSeg off i p.2
    { segments := st.segments ++ [s],
      batcher := addSegment 100 st.batcher s,
      checkpoint := if (i + 1) % interval == 0 then some i else st.checkpoint }

/-- The first `j` iterations of the transcribe loop (a crash after segment
`j - 1` stops here, with no final flush). -/
def transcribeLoop (interval : Nat) (off : ℚ) (resumeFrom : Nat)
    (raw : List RawSeg) (j : Nat) : TranscribeState :=
  ((raw.enum).take j).foldl (transcribeStep interval off resumeFrom) {}

/-- An uninterrupted `transcribe_file` run: every segment processed from
index 0; the returned transcript's segment list. -/
def transcribeUninterrupted (interval : Nat) (off : ℚ) (raw : List RawSeg) :
    List TranscriptSegment :=
  (transcribeLoop interval off 0 raw raw.length).segments

/-- A run that crashed after `j` processed segments, followed by a
confirmed resume: the durable state is the flushed batches and the saved
checkpoint; the resumed run loads `get_all_segments()`, sets
`resume_from_segment = checkpoint.last_segment_id`, re-runs the loop over
the same whisper output, and prepends the resumed segments
(`segments = resumed_segments + segments`).  With no checkpoint the resume
falls back to a fresh run. -/
def transcribeResumed (interval : Nat) (off : ℚ) (raw : List RawSeg) (j : Nat) :
    List TranscriptSegment :=
  let crash := transcribeLoop interval off 0 raw j
  match crash.checkpoint with
  | some k =>
    getAllSegments crash.batcher ++
      (transcribeLoop interval off k raw raw.length).segments
  | none => transcribeUninterrupted interval off raw

/-! ## Checkpoint persistence: whisper_transcribe vs kaggle -/

/-- Crash points inside `CheckpointManager.save_checkpoint`
(whisper_transcribe.py): before any write, mid-way through writing the
temp file (`k` bytes written), after the temp write, after the
`temp_file.replace(...)` rename. -/
inductive SaveCrash where
  | beforeWrite
  | midTempWrite (k : Nat)
  | afterTempWrite
  | afterRename
deriving DecidableEq

/-- The two files `save_checkpoint` touches: the canonical
`checkpoint.json` and the `checkpoint.tmp` temp file; `none` means the
file does not exist.  Record serializations are modelled as strings. -/
structure CheckpointFS where
  canonical : Option String := none
  temp : Option String := none
deriving DecidableEq

/-- `CheckpointManager.save_checkpoint` (whisper_transcribe.py) cut off at
a crash point: the record is fully written to the temp file, then a single
atomic rename installs it on the canonical path. -/
def saveCheckpoint (fs : CheckpointFS) (record : String) :
    SaveCrash → CheckpointFS
  | .beforeWrite => fs
  | .midTempWrite k => { fs with temp := some (record.take k) }
  | .afterTempWrite => { fs with temp := some record }
  | .afterRename => { canonical := some record, temp := none }

/-- `CheckpointManager.load_checkpoint` reads only the canonical path. -/
def loadCheckpoint (fs : CheckpointFS) : Option String :=
  fs.canonical

/-- Crash points inside the Kaggle `CheckpointManager.save_checkpoint`
(kaggle/checkpoint_manager.py lines 192-194), which opens the new
checkpoint file and `json.dump`s into it directly — no temp file, no
rename. -/
inductive KaggleCrash where
  | beforeWrite
  | midWrite (k : Nat)
  | afterWrite
deriving DecidableEq

/-- Content of the newest checkpoint file (the one
`load_checkpoint` picks by mtime) after a Kaggle save cut off at a crash
point: `prev` is what the newest file held before the save. -/
def kaggleSaveVisible (prev : Option String) (record : String) :
    KaggleCrash → Option String
  | .beforeWrite => prev
  | .midWrite k => some (record.take k)
  | .afterWrite => some record

/-! ## Spec-side definitions for refinement claims -/

/-- `segment_context` is present and flagged as a question. -/
def ctxIsQuestion : Option SegmentContext → Bool
  | some c => c.is_question
  | none => false

/-- `segment_context` is present with more than 3 key terms. -/
def ctxManyKeyTerms : Option SegmentContext → Bool
  | some c => 3 < c.key_terms.length
  | none => false

/-- The complexity score as the spec words it: a weighted sum of the five
explicit signals (length above threshold +0.2, metaphor +0.3, many key
terms +0.2, question −0.1, hard-pattern substring +0.2), before clamping. -/
def complexitySpecSum (text : String) (ctx : Option SegmentContext) : ℚ :=
  (if 200 < text.length then 2/10 else 0)
  + (if ctxIsMetaphor ctx then 3/10 else 0)
  + (if ctxManyKeyTerms ctx then 2/10 else 0)
  - (if ctxIsQuestion ctx then 1/10 else 0)
  + (if complexPatterns.any (fun p => containsSubstr text p) then 2/10 else 0)

/-! ## Concrete instances used by the claims -/

/-- A dictionary with one known Forex term, backing the fallback path. -/
def c8dict : String → Option String :=
  fun w => if w = "ราคา" then some "price" else none

/-- An empty term dictionary. -/
def noDict : String → Option String := fun _ => none

/-- Serialization of `segment_context` is irrelevant when the context is
`None`; any representative serializer. -/
def anyRepr : SegmentContext → String := fun _ => ""

/-- The segment of the C3 scenario: the Thai text from the spec's cache
scenario. -/
def c3seg : TranscriptionSegment :=
  ⟨1, 0, 35/10, "ราคาขึ้น", 95/100, none⟩

/-- First `_translate_single_segment` call of the C3 scenario, on an empty
pipeline state. -/
def c3run1 : TranslationResult × PipelineState :=
  translateSingleSegment true (ApiOutcome.ok "The price goes up") noDict anyRepr
    c3seg none {}

/-- Second `_translate_single_segment` call on the same text and context,
continuing from the state the first call produced. -/
def c3run2 : TranslationResult × PipelineState :=
  translateSingleSegment true (ApiOutcome.ok "The price goes up") noDict anyRepr
    c3seg none c3run1.2

/-- A segment list for the C10 witness. -/
def c10seg : TranscriptionSegment :=
  ⟨1, 0, 35/10, "สวัสดีครับ", 95/100, none⟩

/-- Whisper outputs for the C1 scenarios: `n` one-second raw segments. -/
def c1raw (n : Nat) : List RawSeg :=
  (List.range n).map (fun i => ⟨(i : ℚ), (i : ℚ) + 1, "t"⟩)

/-! ## Claims -/

/-- C1.  The claim says a confirmed resume from a checkpoint with
`lastCompletedIndex = K` processes only segments with index strictly
greater than K and merges to the same list an uninterrupted run produces.
The code skips only `i < resume_from_segment`, so it reprocesses segment K
itself, and the checkpoint interval is not synchronized with the batcher's
flush (batch size 100): crashing 12-segment job after segment 9 leaves
checkpoint K = 9 with no flushed batch, and the resumed merge is only
segments 9..11 (0..8 lost); crashing a 101-segment job after segment 99
leaves batch 0..99 flushed, and the resumed merge holds segment 99 twice. -/
theorem claim_c1_resume_not_idempotent :
    ((transcribeResumed 10 0 (c1raw 12) 10).map (fun s => s.id) = [9, 10, 11] ∧
     (transcribeUninterrupted 10 0 (c1raw 12)).map (fun s => s.id) =
       List.range 12) ∧
    ((transcribeResumed 10 0 (c1raw 101) 100).map (fun s => s.id)).count 99 = 2 := by
  decide

/-- C2 (counterexample).  The Kaggle `CheckpointManager.save_checkpoint`
writes the record directly into the new checkpoint file with no temp file
and no rename: a crash after 3 bytes leaves "NEW" — neither the previous
record nor the new one — visible to `load_checkpoint`. -/
theorem claim_c2_counterexample :
    kaggleSaveVisible (some "OLDRECORD") "NEWRECORD" (KaggleCrash.midWrite 3) =
      some "NEW" ∧
    some "NEW" ≠ some "OLDRECORD" ∧ some "NEW" ≠ some "NEWRECORD" := by
  decide

/-- C2 (amended).  The whisper_transcribe `CheckpointManager.save_checkpoint`
is atomic — whatever the crash point, `load_checkpoint` sees either the
previous canonical content or the complete new record — while the Kaggle
`save_checkpoint` is not: a crash mid-write exposes a strict prefix of the
new record. -/
theorem claim_c2_amended :
    (∀ (fs : CheckpointFS) (record : String) (cp : SaveCrash),
      loadCheckpoint (saveCheckpoint fs record cp) = fs.canonical ∨
      loadCheckpoint (saveCheckpoint fs record cp) = some record) ∧
    kaggleSaveVisible (some "OLDRECORD") "NEWRECORD" (KaggleCrash.midWrite 3) =
      some "NEW" ∧ "NEW" ≠ "OLDRECORD" ∧ "NEW" ≠ "NEWRECORD" := by
  refine ⟨fun fs record cp => ?_, by decide⟩
  cases cp <;> simp [saveCheckpoint, loadCheckpoint]

/-- C3.  The claim says a second `_translate_single_segment` call on the
same `(text, context)` finds the entry stored by the first call and adds
zero cost.  The code's lookup `self.cache.get(segment.text, context_str)`
omits the `model` argument (so it hashes `text|context|`) while the store
uses `model.value` (hashing `text|context|gpt-3.5-turbo`): the keys
differ, the second call misses, is not served from cache, and the cost is
charged again — the accumulated cost doubles. -/
theorem claim_c3_cost_double_charged :
    generateCacheKey "ราคาขึ้น" "" "" ≠ generateCacheKey "ราคาขึ้น" "" "gpt-3.5-turbo" ∧
    c3run2.1.cached = false ∧
    c3run1.2.stats.total_cost ≠ 0 ∧
    c3run2.2.stats.total_cost = 2 * c3run1.2.stats.total_cost := by
  decide

/-- C4 (counterexample).  `_generate_cache_key` hashes the raw
`text|context|model` string: two serializations of the same context with
the fields in a different order produce different keys. -/
theorem claim_c4_counterexample :
    generateCacheKey "ราคาขึ้น" "topic=trend,lang=th" "gpt-3.5-turbo" ≠
    generateCacheKey "ราคาขึ้น" "lang=th,topic=trend" "gpt-3.5-turbo" := by
  decide

/-- C4 (amended).  Cache keys are order-dependent on the context
serialization: after storing a translation under one serialization, a
lookup with the identical serialization hits, but a lookup with the same
fields in a different order misses — no canonicalization is performed. -/
theorem claim_c4_key_order_dependent :
    (cacheGet (cacheSet {} "ราคาขึ้น" "price rises" "topic=trend,lang=th" "gpt-3.5-turbo")
      "ราคาขึ้น" "topic=trend,lang=th" "gpt-3.5-turbo").1 = some "price rises" ∧
    (cacheGet (cacheSet {} "ราคาขึ้น" "price rises" "topic=trend,lang=th" "gpt-3.5-turbo")
      "ราคาขึ้น" "lang=th,topic=trend" "gpt-3.5-turbo").1 = none := by
  decide

/-- C5 (counterexample).  With no work done (`processed_duration = 0`, so
`get_speed` returns 0), `get_eta` returns the number 0 — not an
infinite/undefined "unknown" marker. -/
theorem claim_c5_counterexample :
    getSpeed 0 5 = 0 ∧ getEta 100 0 5 = 0 := by
  constructor <;> norm_num [getSpeed, getEta]

/-- C5 (amended).  `get_eta` never crashes: it returns 0 whenever
`get_speed` is 0 (in particular when nothing has been processed), and
`(totalDuration - processedDuration) / speed` whenever the speed is
positive. -/
theorem claim_c5_eta_zero_when_idle (total processed elapsed : ℚ) :
    (getSpeed processed elapsed = 0 → getEta total processed elapsed = 0) ∧
    (0 < getSpeed processed elapsed →
      getEta total processed elapsed =
        (total - processed) / getSpeed processed elapsed) := by
  constructor
  · intro h
    simp only [getEta, h]
    norm_num
  · intro h
    simp only [getEta]
    rw [if_pos h]

/-- C5 witness: a tracker that processed 50 seconds of audio in 2 wall
seconds has positive speed and the stated ETA. -/
theorem claim_c5_eta_witness :
    getEta 100 50 2 = (100 - 50) / getSpeed 50 2 :=
  (claim_c5_eta_zero_when_idle 100 50 2).2 (by norm_num [getSpeed])

/-- C6.  `_select_model` follows the threshold ladder with the figurative
override: scores below 0.3 and scores in [0.3, 0.7) (absent the override)
go to GPT-3.5, scores at or above 0.7 go to GPT-4, and a metaphorical
context with score above 0.5 forces GPT-4 regardless of the ladder. -/
theorem claim_c6_tier_ladder (s : ℚ) (ctx : Option SegmentContext)
    (_h0 : 0 ≤ s) (_h1 : s ≤ 1) :
    (s < 3/10 → selectModel s ctx = TranslationModel.GPT_35_TURBO) ∧
    (3/10 ≤ s → s < 7/10 → ¬(ctxIsMetaphor ctx = true ∧ (1/2 : ℚ) < s) →
      selectModel s ctx = TranslationModel.GPT_35_TURBO) ∧
    (7/10 ≤ s → selectModel s ctx = TranslationModel.GPT_4) ∧
    (ctxIsMetaphor ctx = true → (1/2 : ℚ) < s →
      selectModel s ctx = TranslationModel.GPT_4) := by
  refine ⟨fun hs => ?_, fun _ hs hno => ?_, fun hs => ?_, fun hm hs => ?_⟩
  · simp only [selectModel]
    rw [if_neg (fun hc => absurd hc.2 (by linarith)), if_pos hs]
  · simp only [selectModel]
    rw [if_neg hno]
    split_ifs <;> rfl
  · simp only [selectModel]
    split_ifs <;> first | rfl | linarith
  · simp only [selectModel]
    rw [if_pos ⟨hm, hs⟩]

/-- C6 witness: score 0.8 in range, routed to GPT-4. -/
theorem claim_c6_tier_ladder_witness :
    selectModel (4/5) none = TranslationModel.GPT_4 :=
  (claim_c6_tier_ladder (4/5) none (by norm_num) (by norm_num)).2.2.1 (by norm_num)

/-- C7.  `_calculate_complexity` equals the clamp to [0, 1] of the spec's
weighted sum of the five signals, and its result always lies in [0, 1];
it is a pure function of its two inputs. -/
theorem claim_c7_complexity_weighted_sum (text : String)
    (ctx : Option SegmentContext) :
    calcComplexity text ctx = min 1 (max 0 (complexitySpecSum text ctx)) ∧
    0 ≤ calcComplexity text ctx ∧ calcComplexity text ctx ≤ 1 := by
  have h : calcComplexity text ctx = min 1 (max 0 (complexitySpecSum text ctx)) := by
    rcases ctx with _ | c <;>
      simp only [calcComplexity, complexitySpecSum, ctxIsMetaphor, ctxIsQuestion,
        ctxManyKeyTerms, decide_eq_true_eq, Bool.false_eq_true, if_false] <;>
      split_ifs <;> norm_num
  exact ⟨h, h ▸ le_min (by norm_num) (le_max_left 0 _), h ▸ min_le_left 1 _⟩

/-- C8 (counterexample).  A segment whose external call fails is attempted
exactly once — `_perform_translation` has no retry loop even though
`APIConfig.max_retries` is 3 — and the segment is given a dictionary
fallback translation instead of being marked failed. -/
theorem claim_c8_counterexample :
    (performTranslation true ApiOutcome.err c8dict "ราคา ขึ้น").2 = 1 ∧
    APIConfig.max_retries = 3 ∧
    (performTranslation true ApiOutcome.err c8dict "ราคา ขึ้น").1 = "price [ขึ้น]" := by
  decide

/-- C8 (amended).  `_perform_translation` makes exactly one external call
whatever the outcome; on failure it swallows the exception and returns the
dictionary fallback (so a failing segment cannot abort the job), and on
success it returns the stripped response. -/
theorem claim_c8_no_retry (api : ApiOutcome) (dict : String → Option String)
    (text : String) :
    (performTranslation true api dict text).2 = 1 ∧
    (performTranslation true ApiOutcome.err dict text).1 =
      fallbackTranslation dict text ∧
    (∀ r, (performTranslation true (ApiOutcome.ok r) dict text).1 = pyStrip r) := by
  refine ⟨?_, rfl, fun r => rfl⟩
  cases api <;> rfl

/-- C10.  `generate_srt` emits exactly one SRT entry per input segment, in
input order; a segment whose id has no translation gets its original text
in square brackets; and a failing file write yields a `False` return
instead of an exception. -/
theorem claim_c10_srt_one_entry_per_segment
    (segments : List TranscriptionSegment) (translations : List TranslationResult)
    (writeOk : Bool) (i : Nat) (h : i < segments.length) :
    (srtEntries segments translations).length = segments.length ∧
    (srtEntries segments translations)[i]? =
      some (srtEntryFor translations (segments.get ⟨i, h⟩)) ∧
    (generateSrt writeOk segments translations).1 = writeOk ∧
    (∀ seg, translationMap translations seg.id = none →
      srtEntryFor translations seg = toSrt seg ("[" ++ seg.text ++ "]")) := by
  refine ⟨List.length_map _ _, ?_, ?_, fun seg h2 => ?_⟩
  · simp [srtEntries, List.getElem?_eq_getElem, h, List.get_eq_getElem]
  · cases writeOk <;> rfl
  · simp [srtEntryFor, h2]

/-- C10 witness: one segment, no translations — one bracketed entry. -/
theorem claim_c10_srt_witness :
    (srtEntries [c10seg] []).length = [c10seg].length ∧
    (srtEntries [c10seg] [])[0]? =
      some (srtEntryFor [] ([c10seg].get ⟨0, Nat.one_pos⟩)) ∧
    (generateSrt false [c10seg] []).1 = false ∧
    (∀ seg, translationMap [] seg.id = none →
      srtEntryFor [] seg = toSrt seg ("[" ++ seg.text ++ "]")) :=
  claim_c10_srt_one_entry_per_segment [c10seg] [] false 0 Nat.one_pos

/-! ## C9 -/

/-- Segments and results for the C9 scenarios. -/
def c9seg1 : TranscriptionSegment := ⟨1, 0, 1, "ราคา", 9/10, none⟩

/-- Second C9 segment. -/
def c9seg2 : TranscriptionSegment := ⟨2, 1, 2, "ขึ้น", 9/10, none⟩

/-- Successful result for segment 1. -/
def c9res1 : TranslationResult := ⟨1, "ราคา", "price", "gpt-3.5-turbo", 9/10, 0, false, 0, 0⟩

/-- Successful result for segment 2. -/
def c9res2 : TranslationResult := ⟨2, "ขึ้น", "rises", "gpt-3.5-turbo", 9/10, 0, false, 0, 0⟩

/-- Futures where segment 2's `.result()` raises (timeout): its result is
dropped. -/
def c9outcomeFail : TranscriptionSegment → Option TranslationResult :=
  fun s => if s.id = 1 then some c9res1 else none

/-- Futures where both segments succeed. -/
def c9outcomeBoth : TranscriptionSegment → Option TranslationResult :=
  fun s => if s.id = 1 then some c9res1 else if s.id = 2 then some c9res2 else none

/-- C9 (counterexample).  When segment 2's future fails, the returned
result list is just `[c9res1]` — segment 2 is absent from the output with
no failure marker of any kind (the claim requires failed segments to be
"explicitly flagged ... never silently omitted", but the function's only
output is this list and `TranslationResult` has no failure field). -/
theorem claim_c9_counterexample :
    translateSegmentsWithContext c9outcomeFail [[1, 0]] [c9seg1, c9seg2] = [c9res1] ∧
    ((translateSegmentsWithContext c9outcomeFail [[1, 0]] [c9seg1, c9seg2]).map
      (fun r => r.segment_id)) = [1] := by
  decide

instance : IsTotal TranslationResult (fun a b => a.segment_id ≤ b.segment_id) :=
  ⟨fun a b => Nat.le_total a.segment_id b.segment_id⟩

instance : IsTrans TranslationResult (fun a b => a.segment_id ≤ b.segment_id) :=
  ⟨fun _ _ _ h1 h2 => Nat.le_trans h1 h2⟩

/-- Collecting by indices over the full range is just keeping the
successful futures, in order. -/
theorem range_filterMap_getD {α : Type} (l : List (Option α)) :
    (List.range l.length).filterMap (fun j => l.getD j none) = l.filterMap id := by
  induction l with
  | nil => rfl
  | cons a t ih =>
    cases a <;>
      simp [List.range_succ_eq_map, List.filterMap_cons, List.filterMap_map,
        Function.comp_def] <;>
      simpa [List.getD_eq_getElem?_getD] using ih

/-- Collecting a batch's futures in any completion order permutes the
successful futures. -/
theorem collectBatch_perm (futures : List (Option TranslationResult))
    (ord : List Nat) (h : ord.Perm (List.range futures.length)) :
    (collectBatch futures ord).Perm (futures.filterMap id) := by
  unfold collectBatch
  rw [← range_filterMap_getD futures]
  exact h.filterMap _

/-- Specialization of `collectBatch_perm` to a batch of segments. -/
theorem batch_collect_perm (outcome : TranscriptionSegment → Option TranslationResult)
    (batch : List TranscriptionSegment) (ord : List Nat)
    (h : ord.Perm (List.range batch.length)) :
    (collectBatch (batch.map outcome) ord).Perm (batch.filterMap outcome) := by
  have h2 := collectBatch_perm (batch.map outcome) ord (by simpa using h)
  simpa [List.filterMap_map, Function.comp_def] using h2

/-- Batchwise collection over all batches permutes the successful futures
of the concatenation. -/
theorem flatten_collect_perm (outcome : TranscriptionSegment → Option TranslationResult)
    {batches : List (List TranscriptionSegment)} {orders : List (List Nat)}
    (h : List.Forall₂ (fun b o => o.Perm (List.range b.length)) batches orders) :
    ((List.zipWith (fun batch ord => collectBatch (batch.map outcome) ord)
      batches orders).flatten).Perm ((batches.flatten).filterMap outcome) := by
  induction h with
  | nil => rfl
  | cons hbo _ ih =>
    simp only [List.zipWith_cons_cons, List.flatten_cons, List.filterMap_append]
    exact (batch_collect_perm outcome _ _ hbo).append ih

/-- The batches of a list concatenate back to the list. -/
theorem flatten_batchesOf {α : Type} (bs : Nat) (hbs : 0 < bs) (l : List α) :
    (batchesOf bs l).flatten = l := by
  suffices h : ∀ fuel (l : List α), l.length ≤ fuel →
      (batchChunksAux bs fuel l).flatten = l by
    exact h l.length l le_rfl
  intro fuel
  induction fuel with
  | zero =>
    intro l hl
    cases l with
    | nil => rfl
    | cons a t => simp at hl
  | succ n ih =>
    intro l hl
    cases l with
    | nil => rfl
    | cons a t =>
      simp only [batchChunksAux, List.flatten_cons]
      rw [ih ((a :: t).drop bs)
          (by simp only [List.length_drop, List.length_cons] at hl ⊢; omega),
        List.take_append_drop]

/-- The ids of the successful results are the ids of the segments whose
future succeeded, in order. -/
theorem filterMap_outcome_ids
    (outcome : TranscriptionSegment → Option TranslationResult)
    (hout : ∀ s r, outcome s = some r → r.segment_id = s.id)
    (segments : List TranscriptionSegment) :
    (segments.filterMap outcome).map (fun r => r.segment_id) =
      (segments.filter (fun s => (outcome s).isSome)).map (fun s => s.id) := by
  induction segments with
  | nil => rfl
  | cons s t ih =>
    cases hres : outcome s with
    | none => simp [List.filterMap_cons, List.filter_cons, hres, ih]
    | some r => simp [List.filterMap_cons, List.filter_cons, hres, ih, hout s r hres]

/-- C9 (amended).  For input segments with pairwise-distinct ids and any
per-batch completion orders, `_translate_segments_with_context` returns a
permutation of exactly the successful futures (so a segment is missing
from the output precisely when its future failed — but silently, with no
failure flag, as the counterexample shows), and the output ids are
strictly increasing with no duplicates regardless of completion order. -/
theorem claim_c9_order_preserved
    (outcome : TranscriptionSegment → Option TranslationResult)
    (orders : List (List Nat)) (segments : List TranscriptionSegment)
    (hnodup : (segments.map (fun s => s.id)).Nodup)
    (hout : ∀ s r, outcome s = some r → r.segment_id = s.id)
    (hord : List.Forall₂ (fun (b : List TranscriptionSegment) (o : List Nat) =>
      o.Perm (List.range b.length))
      (batchesOf ProcessingConfig.batch_size segments) orders) :
    (translateSegmentsWithContext outcome orders segments).Perm
      (segments.filterMap outcome) ∧
    ((translateSegmentsWithContext outcome orders segments).map
      (fun r => r.segment_id)).Pairwise (· < ·) := by
  have hperm : (translateSegmentsWithContext outcome orders segments).Perm
      (segments.filterMap outcome) := by
    unfold translateSegmentsWithContext sortById
    refine (List.perm_insertionSort _ _).trans ?_
    have h2 := flatten_collect_perm outcome hord
    rwa [flatten_batchesOf ProcessingConfig.batch_size (by norm_num [ProcessingConfig.batch_size]) segments] at h2
  have hsorted : (translateSegmentsWithContext outcome orders segments).Pairwise
      (fun a b => a.segment_id ≤ b.segment_id) := by
    unfold translateSegmentsWithContext sortById
    exact List.sorted_insertionSort _ _
  have hids : ((translateSegmentsWithContext outcome orders segments).map
      (fun r => r.segment_id)).Nodup := by
    have h1 : ((segments.filterMap outcome).map (fun r => r.segment_id)).Nodup := by
      rw [filterMap_outcome_ids outcome hout segments]
      exact hnodup.sublist (List.Sublist.map _ (List.filter_sublist segments))
    exact ((hperm.map (fun r => r.segment_id)).nodup_iff).mpr h1
  refine ⟨hperm, ?_⟩
  have hne : (translateSegmentsWithContext outcome orders segments).Pairwise
      (fun a b => a.segment_id ≠ b.segment_id) := (List.pairwise_map).mp hids
  rw [List.pairwise_map]
  exact (hsorted.and hne).imp (fun h => lt_of_le_of_ne h.1 h.2)

/-- C9 witness: two segments, both futures succeed, completion out of
order — output is a permutation of the two results with strictly
increasing ids. -/
theorem claim_c9_order_witness :
    (translateSegmentsWithContext c9outcomeBoth [[1, 0]] [c9seg1, c9seg2]).Perm
      ([c9seg1, c9seg2].filterMap c9outcomeBoth) ∧
    ((translateSegmentsWithContext c9outcomeBoth [[1, 0]] [c9seg1, c9seg2]).map
      (fun r => r.segment_id)).Pairwise (· < ·) :=
  claim_c9_order_preserved c9outcomeBoth [[1, 0]] [c9seg1, c9seg2]
    (by decide)
    (by
      intro s r h
      unfold c9outcomeBoth at h
      split_ifs at h with h1 h2
      · cases h; simp [c9res1, h1]
      · cases h; simp [c9res2, h2])
    (by
      show List.Forall₂ _ [[c9seg1, c9seg2]] [[1, 0]]
      exact List.Forall₂.cons (by decide) List.Forall₂.nil)

end VdoTranslater
